import Mathlib

/-!
Verification of the Docrouter FastAPI service (src/app.py).

Shallow embedding of the extraction-with-OCR-fallback pipeline
(`extract_text_core` and its helpers), the `/extract-text-by-path`
endpoint wiring, the console decision resolver loop (`console_loop`),
and the `/lang` endpoint (`lang_detect`).

External tools (PyMuPDF text extraction, PyMuPDF page counting,
OCRmyPDF, langdetect) are modelled as black-box adapters that either
return a value or fail; Python exceptions are modelled with `Except`.
Python string operations are modelled executably over the character
list of the string.
-/

namespace Docrouter

/-- Characters stripped by Python's `str.strip()` (the ASCII whitespace
subset, which covers every input appearing in this development). -/
def pyWhitespace (c : Char) : Bool :=
  c = ' ' || c = '\t' || c = '\n' || c = '\r' || c = '\x0b' || c = '\x0c'

/-- Python `str.strip()` on the character list: drop whitespace from both
ends. -/
def pyStripList (cs : List Char) : List Char :=
  ((cs.dropWhile pyWhitespace).reverse.dropWhile pyWhitespace).reverse

/-- Python `s.strip()`. -/
def pyStrip (s : String) : String := String.mk (pyStripList s.data)

/-- Python `s.lower()` (ASCII case folding suffices here). -/
def pyLower (s : String) : String := String.mk (s.data.map Char.toLower)

/-- Python truthiness of a string: only the empty string is falsy. -/
def pyFalsyStr (s : String) : Bool := s.data.isEmpty

/-- Result dict built at the end of `extract_text_core` (src/app.py:193-199).
In the code `pages` is always the integer returned by `_pdf_pages` (its
failure propagates as an exception), so the field is a plain `Nat` here. -/
structure ExtractionResult where
  text : String
  has_text_layer : Bool
  used_ocr : Bool
  pages : Nat
  size_bytes : Nat
deriving Repr, DecidableEq

/-- Failure modes of `extract_text_core`: `ocrFailed` is the explicit
`HTTPException(500, detail=...)` raised at src/app.py:184-187; `adapterError`
is any other uncaught exception propagating out (e.g. from `_pdf_pages` at
line 160). -/
inductive ExtractErr where
  | ocrFailed (detail : String)
  | adapterError (msg : String)
deriving Repr, DecidableEq

/-- Black-box behaviour of the external tool adapters for one document:
`pdfPages` models `_pdf_pages(path)` (src/app.py:118-120), `readPdfText`
models `_read_pdf_text(path)` (src/app.py:110-116), `ocr` models
`_ocr_via_ocrmypdf(path, langs)` (src/app.py:125-156) as a function of the
language string, and `sizeBytes` models `os.path.getsize(path)`. -/
structure PdfAdapters where
  pdfPages : Except String Nat
  readPdfText : Except String String
  ocr : String → Except String String
  sizeBytes : Nat

/-- Step 1 of `extract_text_core` (src/app.py:166-171): try the text layer,
and on any adapter exception fall back to the empty string. -/
def text_layer_attempt (ad : PdfAdapters) : String :=
  match ad.readPdfText with
  | .ok t => t
  | .error _ => ""

/-- `_needs_ocr` (src/app.py:122-123): true iff the text is empty after
trimming whitespace. -/
def needs_ocr (text : String) : Bool :=
  (pyStripList text.data).isEmpty

/-- The detail string of the `HTTPException` raised on OCR failure
(src/app.py:184-187), with the adapter's error message interpolated. -/
def ocrFailDetail (e : String) : String :=
  "OCR failed: " ++ e ++ ". Make sure Tesseract is installed (Windows: C:\\Program Files\\Tesseract-OCR)."

/-- Python `text or ""` on a string (src/app.py:194): the empty string is
falsy, any other string is returned unchanged — so this is the identity. -/
def py_str_or_empty (s : String) : String :=
  if pyFalsyStr s then "" else s

/-- Python truthiness of the `ocr_langs` argument (`if not ocr_langs`,
src/app.py:175): `None` and the empty string are falsy. -/
def ocrEnabled : Option String → Bool
  | none => false
  | some s => !pyFalsyStr s

/-- `extract_text_core(path, ocr_langs)` (src/app.py:158-199).
Page counting (line 160) is not guarded by try/except, so its failure
propagates. Text-layer failure falls back to `""` (lines 166-171). If the
trimmed text is empty and `ocr_langs` is truthy, the OCR adapter runs and
its failure raises `HTTPException` (lines 174-187). The result dict is
built at lines 193-199 with
`has_text_layer = bool(text.strip()) and not used_ocr`. -/
def extract_text_core (ad : PdfAdapters) (ocr_langs : Option String) :
    Except ExtractErr ExtractionResult :=
  match ad.pdfPages with
  | .error m => .error (.adapterError m)
  | .ok pages =>
    let text0 := text_layer_attempt ad
    let step2 : Except ExtractErr (String × Bool) :=
      if needs_ocr text0 then
        match ocr_langs with
        | none => .ok (text0, false)
        | some langs =>
          if pyFalsyStr langs then .ok (text0, false)
          else
            match ad.ocr langs with
            | .ok t => .ok (t, true)
            | .error e => .error (.ocrFailed (ocrFailDetail e))
      else .ok (text0, false)
    match step2 with
    | .error e => .error e
    | .ok (text, used_ocr) =>
      .ok { text := py_str_or_empty text
            has_text_layer := !needs_ocr text && !used_ocr
            used_ocr := used_ocr
            pages := pages
            size_bytes := ad.sizeBytes }

/-- A JSON field of a request body: absent, explicit `null`, or a value.
Used to model the pydantic parsing of `ExtractByPathIn.ocr_langs`
(src/app.py:55-57). -/
inductive JsonField (α : Type) where
  | absent
  | null
  | val (a : α)
deriving Repr, DecidableEq

/-- Pydantic parsing of `ocr_langs: Optional[str] = "deu+eng+rus"`
(src/app.py:57): an absent field takes the default, an explicit `null`
becomes `None`, a string value is kept. -/
def parsed_ocr_langs : JsonField String → Option String
  | .absent => some "deu+eng+rus"
  | .null => none
  | .val s => some s

/-- The language string the `/extract-text-by-path` endpoint passes to the
pipeline: `body.ocr_langs or "deu+eng+rus"` (src/app.py:250). -/
def effective_ocr_langs (f : JsonField String) : String :=
  match parsed_ocr_langs f with
  | none => "deu+eng+rus"
  | some s => if pyFalsyStr s then "deu+eng+rus" else s

/-- Possible HTTP responses of `/extract-text-by-path` (src/app.py:238-256). -/
inductive EndpointResp where
  | badRequest (e : String)
  | notFound (e : String)
  | okResult (r : ExtractionResult)
  | serverError (e : String)
deriving Repr, DecidableEq

/-- `/extract-text-by-path` (src/app.py:238-256): extension and existence
checks, then `extract_text_core(path, body.ocr_langs or "deu+eng+rus")`;
an `HTTPException` from the pipeline is re-raised (500 with its detail),
any other exception becomes a 500 `extract_failed` response. -/
def extract_text_by_path (isPdf existsOnDisk : Bool) (ad : PdfAdapters)
    (ocr_langs_field : JsonField String) : EndpointResp :=
  if !isPdf then .badRequest "only .pdf accepted"
  else if !existsOnDisk then .notFound "file not found"
  else
    match extract_text_core ad (some (effective_ocr_langs ocr_langs_field)) with
    | .ok r => .okResult r
    | .error (.ocrFailed d) => .serverError d
    | .error (.adapterError m) => .serverError m

/-- `DecisionInit` payload queued by `/decisions/init` (src/app.py:62-67). -/
structure PendingDecision where
  request_id : String
  resume_url : String
  folder_endpoints : List String
  suggested_path : Option String
  preview_text : Option String
deriving Repr, DecidableEq

/-- The JSON body `console_loop` POSTs to `resume_url`
(src/app.py:327-328 and 333-334). -/
structure DecisionBody where
  request_id : String
  selected_path : Option String
  suggested_path : Option String
  create : Bool
deriving Repr, DecidableEq

/-- Outcome of one `console_loop` iteration for a dequeued decision:
either a body is POSTed to `resume_url` (the POST attempt itself may fail
and is swallowed, src/app.py:340-347), or the decision is discarded with a
warning and the loop continues (src/app.py:336-339). -/
inductive ConsoleOutcome where
  | send (body : DecisionBody)
  | discard
deriving Repr, DecidableEq

/-- Value of a nonempty all-digit character list read in base 10. -/
def digitsToNat (cs : List Char) : Nat :=
  cs.foldl (fun n c => n * 10 + (c.toNat - 48)) 0

/-- Python `int(s)`: strip, then an optional single sign followed by at
least one decimal digit; `none` where Python raises `ValueError`.
(Python additionally accepts underscore digit separators between digits,
which never occur in the inputs considered here.) -/
def pythonInt (s : String) : Option Int :=
  match pyStripList s.data with
  | [] => none
  | c :: rest =>
    let neg := c = '-'
    let digits := if c = '-' || c = '+' then rest else c :: rest
    if digits.isEmpty || !digits.all Char.isDigit then none
    else if neg then some (-(digitsToNat digits : Int))
    else some (digitsToNat digits : Int)

/-- Python list subscription `l[i]` with an `int` index: nonnegative
indices below the length read left to right, negative indices no smaller
than `-len(l)` wrap around from the end, anything else raises `IndexError`
(modelled as `none`). -/
def pyIndex (l : List String) (i : Int) : Option String :=
  if 0 ≤ i ∧ i < (l.length : Int) then l.get? i.toNat
  else if -(l.length : Int) ≤ i ∧ i < 0 then l.get? ((l.length : Int) + i).toNat
  else none

/-- One iteration of `console_loop` (src/app.py:306-347) after dequeuing
`d`: `choice` is the raw first console line (the code strips it, line 324),
`createInput` is the raw second line read only in the create branch (line
326). On `"c"` the entered path stripped, or the suggested default when
blank, is sent with `create=True` — with no validation that it is
non-empty. Otherwise `int(choice)` indexes `folder_endpoints` at
`idx - 1`; any exception in that branch discards the decision. -/
def consoleStep (d : PendingDecision) (choice createInput : String) :
    ConsoleOutcome :=
  let c := pyStrip choice
  let sugg := d.suggested_path.getD ""
  if pyLower c = "c" then
    let entered := pyStrip createInput
    let new_path := if pyFalsyStr entered then sugg else entered
    .send { request_id := d.request_id, selected_path := none,
            suggested_path := some new_path, create := true }
  else
    match pythonInt c with
    | none => .discard
    | some idx =>
      match pyIndex d.folder_endpoints (idx - 1) with
      | none => .discard
      | some sel =>
        .send { request_id := d.request_id, selected_path := some sel,
                suggested_path := none, create := false }

/-- The resolver loop draining a queue of decisions with their console
inputs, collecting the POSTed bodies in order: a discarded decision
contributes nothing and the loop advances to the next item
(src/app.py:307-339). -/
def consoleRun : List (PendingDecision × String × String) → List DecisionBody
  | [] => []
  | (d, c, i) :: rest =>
    match consoleStep d c i with
    | .send b => b :: consoleRun rest
    | .discard => consoleRun rest

/-- Response of the `/lang` endpoint (src/app.py:280 and 286):
probabilities are modelled as rationals. -/
structure LangResult where
  detected_lang : Option String
  prob : ℚ
deriving Repr, DecidableEq

/-- Python `max(langs, key=lambda x: x.prob)` (src/app.py:285): `none` on
the empty list (Python raises `ValueError` there, caught by the handler),
otherwise the first element of maximal probability. -/
def maxByProb : List (String × ℚ) → Option (String × ℚ)
  | [] => none
  | x :: xs => some (xs.foldl (fun a b => if b.2 > a.2 then b else a) x)

/-- `lang_detect` (src/app.py:274-291): strip the input; empty input
short-circuits to `{None, 0.0}`; otherwise call the `detect_langs`
classifier on the stripped text and take the best candidate, with any
exception (classifier failure or empty candidate list) degrading to
`{None, 0.0}`. The classifier is a black-box parameter. -/
def lang_detect (detect : String → Except String (List (String × ℚ)))
    (body_text : Option String) : LangResult :=
  let text := pyStrip (body_text.getD "")
  if pyFalsyStr text then { detected_lang := none, prob := 0 }
  else
    match detect text with
    | .error _ => { detected_lang := none, prob := 0 }
    | .ok langs =>
      match maxByProb langs with
      | none => { detected_lang := none, prob := 0 }
      | some best => { detected_lang := some best.1, prob := best.2 }

/-! Helper lemmas shared by several claims. -/

/-- Python `s or ""` is the identity on strings. -/
theorem py_str_or_empty_id (s : String) : py_str_or_empty s = s := by
  unfold py_str_or_empty pyFalsyStr
  cases s with
  | mk data =>
    cases data with
    | nil => rfl
    | cons a l => rfl

/-- A string whose stripped form is nonempty is itself truthy. -/
theorem needs_ocr_false_not_falsy (s : String) (h : needs_ocr s = false) :
    pyFalsyStr s = false := by
  unfold needs_ocr at h
  unfold pyFalsyStr
  cases hd : s.data with
  | nil => rw [hd] at h; exact absurd h (by decide)
  | cons a l => rfl

/-- `_needs_ocr` holds exactly when the text is the empty string after
stripping whitespace. -/
theorem needs_ocr_iff_strip_empty (s : String) :
    needs_ocr s = true ↔ pyStrip s = "" := by
  unfold needs_ocr pyStrip
  cases h : pyStripList s.data with
  | nil => simp
  | cons a l =>
    simp only [List.isEmpty_cons, Bool.false_eq_true, false_iff]
    intro hc
    have := congrArg String.data hc
    simp at this

/-- Python subscription only ever yields elements of the list. -/
theorem pyIndex_mem (l : List String) (i : Int) (s : String)
    (h : pyIndex l i = some s) : s ∈ l := by
  unfold pyIndex at h
  split at h
  · exact List.get?_mem h
  · split at h
    · exact List.get?_mem h
    · exact absurd h (by simp)

/-- Every successful `extract_text_core` result has the shape built at
src/app.py:193-199: page count from the page adapter, size from the size
adapter, and `has_text_layer` computed as
`bool(text.strip()) and not used_ocr`. -/
theorem extract_ok_shape (ad : PdfAdapters) (langs : Option String)
    (r : ExtractionResult) (h : extract_text_core ad langs = .ok r) :
    ∃ text used pages, ad.pdfPages = .ok pages ∧
      r = { text := py_str_or_empty text,
            has_text_layer := !needs_ocr text && !used,
            used_ocr := used, pages := pages, size_bytes := ad.sizeBytes } := by
  unfold extract_text_core at h
  cases hp : ad.pdfPages with
  | error m => rw [hp] at h; exact absurd h (by simp)
  | ok pages =>
    rw [hp] at h
    simp only [] at h
    split at h
    · exact absurd h (by simp)
    next text used hstep =>
      refine ⟨text, used, pages, rfl, ?_⟩
      injection h with h
      exact h.symm

/-- Branch of src/app.py:158-199 where the text layer is non-whitespace:
OCR is skipped and the text-layer output is returned verbatim. -/
theorem extract_no_ocr_branch (ad : PdfAdapters) (langs : Option String)
    (p : Nat) (hp : ad.pdfPages = .ok p)
    (hnw : needs_ocr (text_layer_attempt ad) = false) :
    extract_text_core ad langs =
      .ok { text := text_layer_attempt ad, has_text_layer := true,
            used_ocr := false, pages := p, size_bytes := ad.sizeBytes } := by
  unfold extract_text_core
  rw [hp]
  simp only [hnw, Bool.false_eq_true, if_false, py_str_or_empty_id,
    Bool.not_false, Bool.not_true, Bool.and_true]

/-- Branch of src/app.py:174-177 where the text layer trims to empty and
OCR is disabled: the (possibly whitespace) step-2 text is returned with
both flags false. -/
theorem extract_disabled_branch (ad : PdfAdapters) (langs : Option String)
    (p : Nat) (hp : ad.pdfPages = .ok p)
    (hws : needs_ocr (text_layer_attempt ad) = true)
    (hdis : ocrEnabled langs = false) :
    extract_text_core ad langs =
      .ok { text := text_layer_attempt ad, has_text_layer := false,
            used_ocr := false, pages := p, size_bytes := ad.sizeBytes } := by
  unfold extract_text_core
  rw [hp]
  cases langs with
  | none =>
    simp only [hws, if_true, py_str_or_empty_id, Bool.not_true,
      Bool.and_false, Bool.false_and]
  | some s =>
    have hs : pyFalsyStr s = true := by
      unfold ocrEnabled at hdis
      simpa using hdis
    simp only [hws, if_true, hs, py_str_or_empty_id, Bool.not_true,
      Bool.and_false, Bool.false_and]

/-- Branch of src/app.py:179-181 where OCR runs and succeeds: its output
is returned with `used_ocr=True` and `has_text_layer=False`. -/
theorem extract_ocr_ok_branch (ad : PdfAdapters) (L o : String) (p : Nat)
    (hp : ad.pdfPages = .ok p)
    (hws : needs_ocr (text_layer_attempt ad) = true)
    (hL : pyFalsyStr L = false)
    (hocr : ad.ocr L = .ok o) :
    extract_text_core ad (some L) =
      .ok { text := o, has_text_layer := false, used_ocr := true,
            pages := p, size_bytes := ad.sizeBytes } := by
  unfold extract_text_core
  rw [hp]
  simp only [hws, if_true, hL, Bool.false_eq_true, if_false, hocr,
    py_str_or_empty_id, Bool.not_true, Bool.and_false]

/-- Branch of src/app.py:182-187 where OCR runs and raises: the
`HTTPException` with the OCR detail propagates. -/
theorem extract_ocr_err_branch (ad : PdfAdapters) (L e : String) (p : Nat)
    (hp : ad.pdfPages = .ok p)
    (hws : needs_ocr (text_layer_attempt ad) = true)
    (hL : pyFalsyStr L = false)
    (hocr : ad.ocr L = .error e) :
    extract_text_core ad (some L) = .error (.ocrFailed (ocrFailDetail e)) := by
  unfold extract_text_core
  rw [hp]
  simp only [hws, if_true, hL, Bool.false_eq_true, if_false, hocr]

/-! Claim theorems. -/

/-- C1: for every invocation of `extract_text_core` that returns an
`ExtractionResult`, the fields `has_text_layer` and `used_ocr` are never
both true: whenever `used_ocr` is true, `has_text_layer` is false. -/
theorem extract_never_both_text_layer_and_ocr
    (ad : PdfAdapters) (langs : Option String) (r : ExtractionResult)
    (h : extract_text_core ad langs = .ok r) :
    (r.used_ocr = true → r.has_text_layer = false) ∧
    ¬(r.has_text_layer = true ∧ r.used_ocr = true) := by
  obtain ⟨text, used, pages, -, hr⟩ := extract_ok_shape ad langs r h
  subst hr
  cases used <;> simp

/-- Witness for C1 at a whitespace-layer document whose OCR succeeds. -/
theorem extract_never_both_text_layer_and_ocr_witness :
    ((ExtractionResult.mk "ocr out" false true 1 5).used_ocr = true →
      (ExtractionResult.mk "ocr out" false true 1 5).has_text_layer = false) ∧
    ¬((ExtractionResult.mk "ocr out" false true 1 5).has_text_layer = true ∧
      (ExtractionResult.mk "ocr out" false true 1 5).used_ocr = true) :=
  extract_never_both_text_layer_and_ocr
    ⟨.ok 1, .ok " ", fun _ => .ok "ocr out", 5⟩ (some "deu") _ (by rfl)

/-- C2: when the text layer trims to empty, OCR is enabled and the OCR
adapter raises, `extract_text_core` fails with the `HTTPException` carrying
the adapter's error detail; no `ExtractionResult` (hence no page-count or
size field) is produced. -/
theorem ocr_failure_hard_fails
    (ad : PdfAdapters) (L e : String) (p : Nat)
    (hp : ad.pdfPages = .ok p)
    (hws : needs_ocr (text_layer_attempt ad) = true)
    (hL : pyFalsyStr L = false)
    (hocr : ad.ocr L = .error e) :
    extract_text_core ad (some L) = .error (.ocrFailed (ocrFailDetail e)) ∧
    ∀ r, extract_text_core ad (some L) ≠ .ok r := by
  have h := extract_ocr_err_branch ad L e p hp hws hL hocr
  exact ⟨h, fun r hr => by rw [h] at hr; exact Except.noConfusion hr⟩

/-- Witness for C2 at an empty-layer document whose OCR raises. -/
theorem ocr_failure_hard_fails_witness :
    extract_text_core ⟨.ok 1, .ok "", fun _ => .error "boom", 5⟩ (some "deu") =
      .error (.ocrFailed (ocrFailDetail "boom")) :=
  (ocr_failure_hard_fails ⟨.ok 1, .ok "", fun _ => .error "boom", 5⟩
    "deu" "boom" 1 (by rfl) (by rfl) (by rfl) (by rfl)).1

/-- C3: for every document with a non-whitespace text layer,
`extract_text_core` returns `has_text_layer=true`, `used_ocr=false` and
the text-layer adapter's raw output as `text`, and the OCR adapter is not
invoked (the result does not depend on it). -/
theorem text_layer_bypasses_ocr
    (ad : PdfAdapters) (langs : Option String) (t : String) (p : Nat)
    (hp : ad.pdfPages = .ok p)
    (ht : ad.readPdfText = .ok t)
    (hnw : needs_ocr t = false) :
    extract_text_core ad langs =
      .ok { text := t, has_text_layer := true, used_ocr := false,
            pages := p, size_bytes := ad.sizeBytes } ∧
    ∀ ocr2, extract_text_core { ad with ocr := ocr2 } langs =
      extract_text_core ad langs := by
  have hta : text_layer_attempt ad = t := by
    unfold text_layer_attempt; rw [ht]
  have h1 := extract_no_ocr_branch ad langs p hp (by rw [hta]; exact hnw)
  rw [hta] at h1
  refine ⟨h1, fun ocr2 => ?_⟩
  have hta2 : text_layer_attempt { ad with ocr := ocr2 } = t := by
    unfold text_layer_attempt; rw [show ({ ad with ocr := ocr2 } : PdfAdapters).readPdfText = ad.readPdfText from rfl, ht]
  have h2 := extract_no_ocr_branch { ad with ocr := ocr2 } langs p hp
    (by rw [hta2]; exact hnw)
  rw [hta2] at h2
  rw [h1, h2]

/-- Witness for C3 at a document with text layer "hello". -/
theorem text_layer_bypasses_ocr_witness :
    extract_text_core ⟨.ok 3, .ok "hello", fun _ => .error "no tess", 500⟩
      (some "deu") =
      .ok { text := "hello", has_text_layer := true, used_ocr := false,
            pages := 3, size_bytes := 500 } :=
  (text_layer_bypasses_ocr ⟨.ok 3, .ok "hello", fun _ => .error "no tess", 500⟩
    (some "deu") "hello" 3 (by rfl) (by rfl) (by rfl)).1

/-- C4: for every document whose text layer trims to empty and with OCR
enabled, `extract_text_core` returns `used_ocr=true`,
`has_text_layer=false` and the OCR adapter's output as `text`; and OCR
necessity (`_needs_ocr`) holds exactly when the step-2 text trims to the
empty string. -/
theorem whitespace_layer_triggers_ocr
    (ad : PdfAdapters) (L o : String) (p : Nat)
    (hp : ad.pdfPages = .ok p)
    (hws : needs_ocr (text_layer_attempt ad) = true)
    (hL : pyFalsyStr L = false)
    (hocr : ad.ocr L = .ok o) :
    extract_text_core ad (some L) =
      .ok { text := o, has_text_layer := false, used_ocr := true,
            pages := p, size_bytes := ad.sizeBytes } ∧
    ∀ s : String, needs_ocr s = true ↔ pyStrip s = "" :=
  ⟨extract_ocr_ok_branch ad L o p hp hws hL hocr, needs_ocr_iff_strip_empty⟩

/-- Witness for C4 at a whitespace-layer document with successful OCR. -/
theorem whitespace_layer_triggers_ocr_witness :
    extract_text_core ⟨.ok 2, .ok "  ", fun _ => .ok "ocr text", 7⟩
      (some "deu+eng") =
      .ok { text := "ocr text", has_text_layer := false, used_ocr := true,
            pages := 2, size_bytes := 7 } :=
  (whitespace_layer_triggers_ocr ⟨.ok 2, .ok "  ", fun _ => .ok "ocr text", 7⟩
    "deu+eng" "ocr text" 2 (by rfl) (by rfl) (by rfl) (by rfl)).1

/-- C5 counterexample: a whitespace-only text layer with OCR disabled is
returned verbatim — the `text` field is `"   "`, not the empty string
claimed (Python `text or ""` keeps any non-empty string, src/app.py:194). -/
theorem whitespace_disabled_counterexample :
    extract_text_core ⟨.ok 1, .ok "   ", fun _ => .ok "ocr out", 5⟩ none =
      .ok { text := "   ", has_text_layer := false, used_ocr := false,
            pages := 1, size_bytes := 5 } ∧
    ("   " : String) ≠ "" :=
  ⟨by rfl, by decide⟩

/-- C5 (amended): with a text layer trimming to empty and OCR disabled,
`extract_text_core` succeeds with `used_ocr=false`, `has_text_layer=false`
and `text` equal to the step-2 text itself — the empty string when the
layer is absent or empty, but the original whitespace when the layer is
whitespace-only — without invoking the OCR adapter. -/
theorem ocr_disabled_keeps_step2_text
    (ad : PdfAdapters) (langs : Option String) (p : Nat)
    (hp : ad.pdfPages = .ok p)
    (hws : needs_ocr (text_layer_attempt ad) = true)
    (hdis : ocrEnabled langs = false) :
    extract_text_core ad langs =
      .ok { text := text_layer_attempt ad, has_text_layer := false,
            used_ocr := false, pages := p, size_bytes := ad.sizeBytes } ∧
    ∀ ocr2, extract_text_core { ad with ocr := ocr2 } langs =
      extract_text_core ad langs := by
  have h1 := extract_disabled_branch ad langs p hp hws hdis
  refine ⟨h1, fun ocr2 => ?_⟩
  have h2 := extract_disabled_branch { ad with ocr := ocr2 } langs p hp hws hdis
  rw [h1, h2]
  rfl

/-- Witness for the amended C5 at a document with a truly empty text layer
and OCR disabled: the result text is the empty string. -/
theorem ocr_disabled_keeps_step2_text_witness :
    extract_text_core ⟨.ok 4, .ok "", fun _ => .ok "ocr out", 9⟩ none =
      .ok { text := "", has_text_layer := false, used_ocr := false,
            pages := 4, size_bytes := 9 } :=
  (ocr_disabled_keeps_step2_text ⟨.ok 4, .ok "", fun _ => .ok "ocr out", 9⟩
    none 4 (by rfl) (by rfl) (by rfl)).1

/-- C6 counterexample: a failing page-counting adapter is fatal — the
error propagates out of `extract_text_core` (line 160 is not guarded) and
no `ExtractionResult` with `pages=null` is produced. -/
theorem page_failure_counterexample :
    extract_text_core ⟨.error "cannot open", .ok "hello", fun _ => .ok "x", 5⟩
      (some "deu") = .error (.adapterError "cannot open") ∧
    (extract_text_core ⟨.error "cannot open", .ok "hello", fun _ => .ok "x", 5⟩
      (some "deu")).toOption = none :=
  ⟨by rfl, by rfl⟩

/-- C6 (amended): failure of the page-counting adapter is fatal to
`extract_text_core`: the error propagates unchanged and the pipeline does
not continue (in a successful result `pages` always comes from the
adapter, never from a fallback). -/
theorem page_count_failure_propagates
    (ad : PdfAdapters) (langs : Option String) (m : String)
    (h : ad.pdfPages = .error m) :
    extract_text_core ad langs = .error (.adapterError m) := by
  unfold extract_text_core
  rw [h]

/-- Witness for the amended C6 at a concrete failing page adapter. -/
theorem page_count_failure_propagates_witness :
    extract_text_core ⟨.error "fitz broke", .ok "t", fun _ => .ok "x", 2⟩
      none = .error (.adapterError "fitz broke") :=
  page_count_failure_propagates ⟨.error "fitz broke", .ok "t", fun _ => .ok "x", 2⟩
    none "fitz broke" (by rfl)

/-- C7 counterexample: entering `c` and then a blank path for a decision
with no `suggested_path` sends a `DecisionResult` with `create=True` and an
empty `suggested_path` (src/app.py:326-328 performs no validation), so the
claimed invariant that `create=true` comes with a non-empty path fails. -/
theorem decision_create_empty_counterexample :
    consoleStep ⟨"r1", "http://h/resume", ["A/B/C/D"], none, none⟩ "c" " " =
      .send ⟨"r1", none, some "", true⟩ ∧
    (DecisionBody.mk "r1" none (some "") true).create = true ∧
    (DecisionBody.mk "r1" none (some "") true).suggested_path = some "" :=
  ⟨rfl, rfl, rfl⟩

/-- C7 (amended): every `DecisionResult` the resolver sends satisfies:
when `create=true`, `selected_path` is null and `suggested_path` is
non-null but may be the empty string (blank entry with no default); when
`create=false`, `suggested_path` is null and `selected_path` is one of the
decision's `folder_endpoints`. -/
theorem decision_body_shape
    (d : PendingDecision) (choice createInput : String) (body : DecisionBody)
    (h : consoleStep d choice createInput = .send body) :
    body.request_id = d.request_id ∧
    ((body.create = true ∧ body.selected_path = none ∧
        body.suggested_path.isSome = true) ∨
     (body.create = false ∧ body.suggested_path = none ∧
        body.selected_path.isSome = true ∧
        body.selected_path.getD "" ∈ d.folder_endpoints)) := by
  simp only [consoleStep] at h
  split at h
  · injection h with h
    subst h
    exact ⟨rfl, Or.inl ⟨rfl, rfl, rfl⟩⟩
  · split at h
    · exact ConsoleOutcome.noConfusion h
    next idx hpi =>
      split at h
      next hix => exact ConsoleOutcome.noConfusion h
      next sel hix =>
        injection h with h
        subst h
        exact ⟨rfl, Or.inr ⟨rfl, rfl, rfl, pyIndex_mem _ _ _ hix⟩⟩

/-- Witness for the amended C7: selecting index 1 of a single candidate. -/
theorem decision_body_shape_witness :
    (DecisionBody.mk "r9" (some "X") none false).request_id = "r9" ∧
    (((DecisionBody.mk "r9" (some "X") none false).create = true ∧
        (DecisionBody.mk "r9" (some "X") none false).selected_path = none ∧
        (DecisionBody.mk "r9" (some "X") none false).suggested_path.isSome = true) ∨
     ((DecisionBody.mk "r9" (some "X") none false).create = false ∧
        (DecisionBody.mk "r9" (some "X") none false).suggested_path = none ∧
        (DecisionBody.mk "r9" (some "X") none false).selected_path.isSome = true ∧
        (DecisionBody.mk "r9" (some "X") none false).selected_path.getD "" ∈ ["X"])) :=
  decision_body_shape ⟨"r9", "u", ["X"], none, none⟩ "1" ""
    ⟨"r9", some "X", none, false⟩ (by rfl)

/-- Branch equation for `console_loop`: entry `c` sends the create body. -/
theorem consoleStep_create (d : PendingDecision) (choice createInput : String)
    (hc : pyLower (pyStrip choice) = "c") :
    consoleStep d choice createInput =
      .send { request_id := d.request_id, selected_path := none,
              suggested_path := some (if pyFalsyStr (pyStrip createInput) then
                d.suggested_path.getD "" else pyStrip createInput),
              create := true } := by
  simp only [consoleStep, hc, if_true]

/-- Branch equation for `console_loop`: a non-`c` entry that fails integer
parsing is discarded. -/
theorem consoleStep_discard_parse (d : PendingDecision)
    (choice createInput : String)
    (hc : ¬pyLower (pyStrip choice) = "c")
    (hpi : pythonInt (pyStrip choice) = none) :
    consoleStep d choice createInput = .discard := by
  simp only [consoleStep, if_neg hc, hpi]

/-- Branch equation for `console_loop`: a parsed index whose `idx - 1`
falls outside the Python index range raises `IndexError` and the decision
is discarded. -/
theorem consoleStep_discard_range (d : PendingDecision)
    (choice createInput : String) (idx : Int)
    (hc : ¬pyLower (pyStrip choice) = "c")
    (hpi : pythonInt (pyStrip choice) = some idx)
    (hix : pyIndex d.folder_endpoints (idx - 1) = none) :
    consoleStep d choice createInput = .discard := by
  simp only [consoleStep, if_neg hc, hpi, hix]

/-- Branch equation for `console_loop`: a parsed index inside the Python
index range selects that endpoint. -/
theorem consoleStep_select (d : PendingDecision)
    (choice createInput : String) (idx : Int) (sel : String)
    (hc : ¬pyLower (pyStrip choice) = "c")
    (hpi : pythonInt (pyStrip choice) = some idx)
    (hix : pyIndex d.folder_endpoints (idx - 1) = some sel) :
    consoleStep d choice createInput =
      .send { request_id := d.request_id, selected_path := some sel,
              suggested_path := none, create := false } := by
  simp only [consoleStep, if_neg hc, hpi, hix]

/-- C8 counterexample: with two candidates, the out-of-range entry `0`
(outside 1..2) is not discarded — Python's negative indexing at `idx-1 = -1`
(src/app.py:332) selects the last endpoint and a callback is sent. -/
theorem out_of_range_zero_counterexample :
    consoleStep ⟨"r2", "u", ["A", "B"], none, none⟩ "0" "" =
      .send ⟨"r2", some "B", none, false⟩ ∧
    consoleStep ⟨"r2", "u", ["A", "B"], none, none⟩ "0" "" ≠ .discard ∧
    pythonInt "0" = some 0 ∧
    ¬(1 ≤ (0 : Int) ∧ (0 : Int) ≤ 2) := by
  refine ⟨rfl, ?_, rfl, by decide⟩
  intro hc
  rw [show consoleStep ⟨"r2", "u", ["A", "B"], none, none⟩ "0" "" =
    .send ⟨"r2", some "B", none, false⟩ from rfl] at hc
  exact ConsoleOutcome.noConfusion hc

/-- C8 (amended): a decision is discarded (no callback) exactly when the
trimmed entry is not `c` (case-insensitively) and either fails Python
integer parsing or parses to `idx` with `idx - 1` outside Python's index
range of `folder_endpoints` (so `0` and small negative entries wrap around
and select an endpoint, and a blank create path with no default is sent,
not discarded); a discarded decision contributes nothing and the loop
advances to the remaining queue. -/
theorem invalid_input_discarded
    (d : PendingDecision) (choice createInput : String) :
    (consoleStep d choice createInput = .discard ↔
      (pyLower (pyStrip choice) ≠ "c" ∧
       ∀ idx, pythonInt (pyStrip choice) = some idx →
         pyIndex d.folder_endpoints (idx - 1) = none)) ∧
    ∀ rest, consoleStep d choice createInput = .discard →
      consoleRun ((d, choice, createInput) :: rest) = consoleRun rest := by
  constructor
  · by_cases hc : pyLower (pyStrip choice) = "c"
    · rw [consoleStep_create d choice createInput hc]
      constructor
      · intro h; exact ConsoleOutcome.noConfusion h
      · rintro ⟨hne, -⟩; exact absurd hc hne
    · cases hpi : pythonInt (pyStrip choice) with
      | none =>
        rw [consoleStep_discard_parse d choice createInput hc hpi]
        constructor
        · intro _; exact ⟨hc, fun j hj => Option.noConfusion hj⟩
        · intro _; rfl
      | some idx =>
        cases hix : pyIndex d.folder_endpoints (idx - 1) with
        | none =>
          rw [consoleStep_discard_range d choice createInput idx hc hpi hix]
          constructor
          · intro _
            refine ⟨hc, fun j hj => ?_⟩
            injection hj with hj
            rw [← hj]
            exact hix
          · intro _; rfl
        | some sel =>
          rw [consoleStep_select d choice createInput idx sel hc hpi hix]
          constructor
          · intro h; exact ConsoleOutcome.noConfusion h
          · rintro ⟨-, hall⟩
            have := hall idx rfl
            rw [hix] at this
            exact Option.noConfusion this
  · intro rest h
    simp only [consoleRun, h]

/-- Witness for the amended C8: an out-of-range entry `99` against two
candidates is discarded and the resolver advances to the next queued
decision, which is resolved normally. -/
theorem invalid_input_discarded_witness :
    consoleRun [(⟨"rA", "u", ["A", "B"], none, none⟩, "99", ""),
                (⟨"rB", "u", ["A"], none, none⟩, "1", "")] =
      [⟨"rB", some "A", none, false⟩] :=
  ((invalid_input_discarded ⟨"rA", "u", ["A", "B"], none, none⟩ "99" "").2
    [(⟨"rB", "u", ["A"], none, none⟩, "1", "")] (by rfl)).trans (by rfl)

/-- C9: `classify` applied to the empty string and to a whitespace-only
string returns `{language_code: null, probability: 0.0}` without invoking
the underlying classifier (the result is the same for every classifier). -/
theorem classify_short_circuit
    (detect : String → Except String (List (String × ℚ))) :
    lang_detect detect (some "") = { detected_lang := none, prob := 0 } ∧
    lang_detect detect (some "   ") = { detected_lang := none, prob := 0 } ∧
    ∀ detect2, lang_detect detect (some "") = lang_detect detect2 (some "") ∧
      lang_detect detect (some "   ") = lang_detect detect2 (some "   ") :=
  ⟨rfl, rfl, fun _ => ⟨rfl, rfl⟩⟩

/-- C10: the `/extract-text-by-path` endpoint maps an absent or empty
`ocr_langs` field to `"deu+eng+rus"` before invoking the pipeline, and for
every request the language string it passes is truthy — OCR cannot be
disabled through this endpoint. -/
theorem by_path_ocr_always_enabled :
    effective_ocr_langs .absent = "deu+eng+rus" ∧
    effective_ocr_langs (.val "") = "deu+eng+rus" ∧
    (∀ f, ocrEnabled (some (effective_ocr_langs f)) = true) ∧
    ∀ isPdf ex ad,
      extract_text_by_path isPdf ex ad .absent =
        extract_text_by_path isPdf ex ad (.val "deu+eng+rus") ∧
      extract_text_by_path isPdf ex ad (.val "") =
        extract_text_by_path isPdf ex ad (.val "deu+eng+rus") := by
  refine ⟨rfl, rfl, ?_, fun isPdf ex ad => ⟨rfl, rfl⟩⟩
  intro f
  cases f with
  | absent => rfl
  | null => rfl
  | val s =>
    simp only [effective_ocr_langs, parsed_ocr_langs, ocrEnabled]
    by_cases hs : pyFalsyStr s = true
    · rw [if_pos hs]; rfl
    · rw [if_neg hs]
      simp only [Bool.not_eq_true] at hs
      rw [hs]
      rfl

/-- Witness for C9 at a concrete classifier. -/
theorem classify_short_circuit_witness :
    lang_detect (fun _ => .ok [("en", 9/10)]) (some "") =
      { detected_lang := none, prob := 0 } ∧
    lang_detect (fun _ => .ok [("en", 9/10)]) (some "   ") =
      { detected_lang := none, prob := 0 } :=
  ⟨(classify_short_circuit (fun _ => .ok [("en", 9/10)])).1,
   (classify_short_circuit (fun _ => .ok [("en", 9/10)])).2.1⟩

/-- Witness for C10 at a concrete request field. -/
theorem by_path_ocr_always_enabled_witness :
    effective_ocr_langs .absent = "deu+eng+rus" ∧
    effective_ocr_langs (.val "") = "deu+eng+rus" ∧
    ocrEnabled (some (effective_ocr_langs (.val ""))) = true :=
  ⟨by_path_ocr_always_enabled.1, by_path_ocr_always_enabled.2.1,
   by_path_ocr_always_enabled.2.2.1 (.val "")⟩

end Docrouter
